import Mathlib

/-!
Shallow embedding of the Danswer Slack bot event pipeline
(`backend/danswer/bots/slack/listener.py` and
`backend/danswer/bots/slack/handlers/handle_message.py`).

External collaborators (the QA engine, the Slack web client, the
configuration store) are modelled as an oracle structure `World`; each
outbound platform call appends an `Effect` to a trace and may raise per the
oracle.  Python exceptions are modelled with `Except PyExn` (a raised
exception propagates as `Except.error`); functions whose Python counterpart
returns `None` produce the trace together with an `Option PyExn` telling
whether an exception escaped them.
-/

namespace DanswerSlack

/-- Truthiness of an optional Python string: `None` and `""` are falsy. -/
def strFalsy : Option String → Bool
  | none => true
  | some s => s == ""

/-- Python `a or b` on optional strings (`thread_ts or message_ts`). -/
def pyOr (a b : Option String) : Option String :=
  if strFalsy a then b else a

/-- ASCII fragment of the Python regex class `\s` (space, tab, newline,
carriage return, vertical tab, form feed); the mention-stripping regex only
ever meets these in the modelled inputs. -/
def isPySpace (c : Char) : Bool :=
  c = ' ' || c = '\t' || c = '\n' || c = '\r' || c = '\x0b' || c = '\x0c'

/-- If `s` starts with the literal pattern `p`, return the remainder. -/
def stripPrefixChars : List Char → List Char → Option (List Char)
  | [], s => some s
  | _ :: _, [] => none
  | p :: ps, c :: cs => if p = c then stripPrefixChars ps cs else none

theorem stripPrefixChars_length {p s r : List Char}
    (h : stripPrefixChars p s = some r) : r.length ≤ s.length := by
  induction p generalizing s with
  | nil =>
    simp only [stripPrefixChars, Option.some.injEq] at h
    simp [h]
  | cons p ps ih =>
    cases s with
    | nil => simp [stripPrefixChars] at h
    | cons c cs =>
      simp only [stripPrefixChars] at h
      split at h
      · exact Nat.le_succ_of_le (ih h)
      · exact absurd h (by simp)

/-- Match `tok` followed by one whitespace character at the head of `s`,
returning the remainder after both (one match of the regex `tok\s`). -/
def matchTokWs (tok s : List Char) : Option (List Char) :=
  match stripPrefixChars tok s with
  | some (w :: rest) => if isPySpace w then some rest else none
  | _ => none

theorem matchTokWs_length {tok s r : List Char}
    (h : matchTokWs tok s = some r) : r.length < s.length := by
  unfold matchTokWs at h
  split at h
  · next w rest heq =>
    split at h
    · cases h
      have := stripPrefixChars_length heq
      simpa using Nat.lt_of_lt_of_le (Nat.lt_succ_self r.length) this
    · exact absurd h (by simp)
  · exact absurd h (by simp)

/-- Fuelled scanner for the single `re.sub` pass; the fuel only bounds the
recursion (each step consumes at least one character) and is irrelevant
once it is at least the text length. -/
def reSubTokWsAux (tok : List Char) : Nat → List Char → List Char
  | 0, s => s
  | _ + 1, [] => []
  | fuel + 1, c :: cs =>
    match matchTokWs tok (c :: cs) with
    | some rest => reSubTokWsAux tok fuel rest
    | none => c :: reSubTokWsAux tok fuel cs

/-- Single left-to-right pass of `re.sub(tok + whitespace, "", s)`:
every non-overlapping occurrence of `tok` followed by one whitespace
character is removed; the scan continues after each removal and does not
rescan the text produced by a removal. -/
def reSubTokWs (tok s : List Char) : List Char :=
  reSubTokWsAux tok s.length s

/-- Substring test (`needle in haystack` for Python strings). -/
def containsChars (pat : List Char) : List Char → Bool
  | [] => (stripPrefixChars pat []).isSome
  | c :: cs => (stripPrefixChars pat (c :: cs)).isSome || containsChars pat cs

/-- Python `needle in haystack` on `String`. -/
def containsStr (needle hay : String) : Bool :=
  containsChars needle.data hay.data

/-- Model of `re.sub(rf"<@{bot_tag_id}>\s", "", msg)` from
`build_request_details` (listener.py line 176). -/
def stripMention (botTagId : String) (msg : String) : String :=
  String.mk (reSubTokWs ("<@" ++ botTagId ++ ">").data msg.data)

/-! ## Data model -/

/-- The fields of `QAResponse` consulted by `handle_message`; documents are
abstracted to their identifiers. -/
structure QAResponse where
  answer : Option String
  quotes : List String
  top_ranked_docs : List String
  eval_res_valid : Option Bool
  error_msg : Option String
  query_event_id : Nat
  deriving DecidableEq, Repr

/-- The slice of a persona `handle_message` reads: the names of its
document sets. -/
structure Persona where
  document_set_names : List String
  deriving DecidableEq, Repr

/-- The `channel_config` dictionary of a `SlackBotConfig`; `none` fields
model absent keys (`answer_filters`, `respond_tag_only`,
`respond_team_member_list`). -/
structure ChannelConf where
  answer_filters : Option (List String)
  respond_tag_only : Option Bool
  respond_team_member_list : Option (List String)
  deriving DecidableEq, Repr

/-- Stored per-channel bot configuration; `channel_config = none` models a
missing or empty (falsy) dictionary. -/
structure SlackBotConfig where
  persona : Option Persona
  channel_config : Option ChannelConf
  deriving DecidableEq, Repr

/-- `SlackMessageInfo` from `danswer.bots.slack.models`. -/
structure SlackMessageInfo where
  msg_content : String
  channel_to_respond : String
  msg_to_respond : Option String
  sender : Option String
  bipass_filters : Bool
  is_bot_msg : Bool
  deriving DecidableEq, Repr

/-- The fields of an `events_api` payload's `event` dictionary read by the
listener; `none` models an absent key, `bot_profile` records truthiness. -/
structure SlackEvent where
  type : Option String
  text : Option String
  channel : Option String
  ts : Option String
  thread_ts : Option String
  user : Option String
  bot_profile : Bool
  subtype : Option String
  deriving DecidableEq, Repr

/-- A `SocketModeRequest`, discriminated the way the listener inspects
`req.type` (and, for `interactive`, `payload["type"]` and the presence of
`payload["actions"]`). -/
inductive Req where
  | eventsApi (ev : SlackEvent)
  | slashCommands (channel_id : Option String) (text : String) (user_id : Option String)
  | interactive (payloadType : Option String) (hasActions : Bool)
  | otherReq
  deriving DecidableEq, Repr

/-- Python exceptions distinguished by the listener's handlers:
`SlackApiError` is caught selectively around the reaction calls, everything
else only by the dispatcher's blanket `except Exception`. -/
inductive PyExn where
  | slackApi
  | runtimeErr (msg : String)
  | keyError
  deriving DecidableEq, Repr

/-- Observable outbound calls, in the order the pipeline performs them. -/
inductive Effect where
  | ackEvent
  | feedbackConfirm
  | reactAdd
  | ephemeralAck (sender : String)
  | reactRemove
  | apology
  | fetchUserIdsCall
  | clarify (sender : String)
  | engineCall (attempt : Nat) (reflexion : Bool)
  | postErr
  | postAnswer
  | postTeam
  deriving DecidableEq, Repr

/-- Oracle for every external collaborator: per-attempt engine behaviour,
whether each outbound platform call raises, the bot's own user id, and the
channel-name/config lookups. -/
structure World where
  engine : Nat → Except PyExn QAResponse
  fetchUserIds : Except PyExn (List String)
  clarifyExn : Option PyExn
  mainPostExn : Option PyExn
  teamPostExn : Option PyExn
  errPostExn : Option PyExn
  apologyExn : Option PyExn
  ackExn : Option PyExn
  removeExn : Option PyExn
  feedbackExn : Option PyExn
  botTagId : String
  channelNameOf : String → String
  getConfig : String → Option SlackBotConfig

/-- The process-wide settings `process_message`/`handle_message` take as
defaulted parameters. -/
structure Params where
  respondEveryChannel : Bool
  numRetries : Nat
  shouldRespondErrs : Bool
  disableDocsOnly : Bool
  reflexionDefault : Bool
  deriving DecidableEq, Repr

/-! ## Configuration resolution (handle_message lines 61-94) -/

/-- `document_set_names` (handle_message lines 61-65): present only when a
config with a persona is present. -/
def documentSetNames (cfg : Option SlackBotConfig) : Option (List String) :=
  cfg.bind fun c => c.persona.map (·.document_set_names)

/-- The `answer_filters` entry, when a config with a truthy
`channel_config` carrying the key is present. -/
def answerFiltersOf (cfg : Option SlackBotConfig) : Option (List String) :=
  (cfg.bind (·.channel_config)).bind (·.answer_filters)

/-- Resolution of the `reflexion` flag (handle_message lines 67-76): the
process default, overwritten by membership of `well_answered_postfilter`
only when filters are not bypassed and `answer_filters` is configured. -/
def resolvedReflexion (dflt : Bool) (bipass : Bool) (cfg : Option SlackBotConfig) : Bool :=
  match answerFiltersOf cfg with
  | some fs => if bipass then dflt else fs.contains "well_answered_postfilter"
  | none => dflt

/-- The question-mark prefilter (handle_message lines 78-85): fires only
when filters are not bypassed, `questionmark_prefilter` is configured and
the text has no `?`. -/
def questionmarkSkip (msg : String) (bipass : Bool) (cfg : Option SlackBotConfig) : Bool :=
  match answerFiltersOf cfg with
  | some fs =>
    if bipass then false
    else fs.contains "questionmark_prefilter" && !(msg.contains '?')
  | none => false

/-- `respond_tag_only` resolution (handle_message line 93):
`channel_conf.get("respond_tag_only") or False`. -/
def resolvedRespondTagOnly (cfg : Option SlackBotConfig) : Bool :=
  match cfg.bind (·.channel_config) with
  | some conf => conf.respond_tag_only.getD false
  | none => false

/-- `respond_team_member_list` resolution (handle_message line 94):
`channel_conf.get("respond_team_member_list") or None`, so an empty list
collapses to `none`. -/
def resolvedTeamList (cfg : Option SlackBotConfig) : Option (List String) :=
  match cfg.bind (·.channel_config) with
  | some conf =>
    match conf.respond_team_member_list with
    | some l => if l = [] then none else some l
    | none => none
  | none => none

/-! ## AnswerOrchestrator: handle_message (handlers/handle_message.py) -/

/-- One call of the inner `_get_answer` body (handle_message lines
124-139): the engine either raises, or returns a response; a truthy
`error_msg` is re-raised as `RuntimeError(answer.error_msg)`. -/
def attemptOnce (w : World) (i : Nat) : Except PyExn QAResponse :=
  match w.engine i with
  | Except.error e => Except.error e
  | Except.ok a =>
    if strFalsy a.error_msg then Except.ok a
    else Except.error (PyExn.runtimeErr (a.error_msg.getD ""))

/-- The `@retry(tries=num_retries, delay=0.25, backoff=2)` wrapper around
`_get_answer`: up to `remaining` attempts starting at attempt index `i`;
each attempt is recorded as an `engineCall` effect carrying the `reflexion`
flag passed to `answer_qa_query`; the last failure's exception propagates.
The retry library needs a positive tries count; `remaining = 0` is the
unreachable guard case. -/
def retryLoop (w : World) (reflexion : Bool) (i : Nat) :
    Nat → List Effect × Except PyExn QAResponse
  | 0 => ([], Except.error (PyExn.runtimeErr "retry requires a positive tries count"))
  | n + 1 =>
    match attemptOnce w i with
    | Except.ok a => ([Effect.engineCall i reflexion], Except.ok a)
    | Except.error e =>
      match n with
      | 0 => ([Effect.engineCall i reflexion], Except.error e)
      | m + 1 =>
        let r := retryLoop w reflexion (i + 1) (m + 1)
        (Effect.engineCall i reflexion :: r.1, r.2)

/-- Lines 103-116 of handle_message: when a team routing list is resolved,
fetch the member user ids (may raise), and for a slash-command invocation
with a sender additionally post the clarifying note (may raise; neither
call is inside a try block, so an exception propagates). -/
def teamStage (w : World) (info : SlackMessageInfo)
    (teamList : Option (List String)) : List Effect × Except PyExn Unit :=
  match teamList with
  | none => ([], Except.ok ())
  | some _ =>
    match w.fetchUserIds with
    | Except.error e => ([Effect.fetchUserIdsCall], Except.error e)
    | Except.ok _ =>
      if info.is_bot_msg then
        match info.sender with
        | some s =>
          match w.clarifyExn with
          | some e => ([Effect.fetchUserIdsCall, Effect.clarify s], Except.error e)
          | none => ([Effect.fetchUserIdsCall, Effect.clarify s], Except.ok ())
        | none => ([Effect.fetchUserIdsCall], Except.ok ())
      else ([Effect.fetchUserIdsCall], Except.ok ())

/-- Outcome classification and response rendering, handle_message lines
170-244: discard on `eval_res_valid is False`; fail on empty document list
(optionally posting the debug note, whose exception propagates); fail on
empty answer under `disable_docs_only_answer`; otherwise post the reply
(an exception from either post is caught and turns into `True`). -/
def classifyAndRespond (w : World) (ans : QAResponse)
    (teamList : Option (List String)) (shouldErrs disableDocsOnly : Bool) :
    List Effect × Except PyExn Bool :=
  if ans.eval_res_valid = some false then ([], Except.ok true)
  else if ans.top_ranked_docs = [] then
    if shouldErrs then
      match w.errPostExn with
      | some e => ([Effect.postErr], Except.error e)
      | none => ([Effect.postErr], Except.ok true)
    else ([], Except.ok true)
  else if strFalsy ans.answer && disableDocsOnly then ([], Except.ok true)
  else
    match w.mainPostExn with
    | some _ => ([Effect.postAnswer], Except.ok true)
    | none =>
      match teamList with
      | some _ =>
        match w.teamPostExn with
        | some _ => ([Effect.postAnswer, Effect.postTeam], Except.ok true)
        | none => ([Effect.postAnswer, Effect.postTeam], Except.ok false)
      | none => ([Effect.postAnswer], Except.ok false)

/-- `handle_message` (handlers/handle_message.py lines 33-244): returns
`Except.ok true` when a follow-up apology is owed, `Except.ok false` for a
clean skip or a delivered answer, and `Except.error` when an exception
escapes it. -/
def handle_message (w : World) (info : SlackMessageInfo)
    (cfg : Option SlackBotConfig) (num_retries : Nat)
    (shouldErrs disableDocsOnly reflexDflt : Bool) :
    List Effect × Except PyExn Bool :=
  if questionmarkSkip info.msg_content info.bipass_filters cfg then
    ([], Except.ok false)
  else if resolvedRespondTagOnly cfg && !info.bipass_filters then
    ([], Except.ok false)
  else
    let teamList := resolvedTeamList cfg
    let s1 := teamStage w info teamList
    match s1.2 with
    | Except.error e => (s1.1, Except.error e)
    | Except.ok _ =>
      let reflexion := resolvedReflexion reflexDflt info.bipass_filters cfg
      let s2 := retryLoop w reflexion 0 num_retries
      match s2.2 with
      | Except.error _ =>
        if shouldErrs then
          match w.errPostExn with
          | some e2 => (s1.1 ++ s2.1 ++ [Effect.postErr], Except.error e2)
          | none => (s1.1 ++ s2.1 ++ [Effect.postErr], Except.ok true)
        else (s1.1 ++ s2.1, Except.ok true)
      | Except.ok ans =>
        let s3 := classifyAndRespond w ans teamList shouldErrs disableDocsOnly
        (s1.1 ++ s2.1 ++ s3.1, s3.2)

/-! ## Listener (listener.py) -/

/-- The `events_api` branch of `prefilter_requests` (listener.py lines
54-113); short-circuit evaluation only affects logging, so the checks are
one conjunction. -/
def prefilterEvents (w : World) (ev : SlackEvent) : Bool :=
  match ev.channel, ev.text with
  | some ch, some m =>
    !(ch == "") && !(m == "") &&
    (ev.type == some "app_mention" || ev.type == some "message") &&
    !(ev.type == some "message" && !(w.botTagId == "") && containsStr w.botTagId m) &&
    !ev.bot_profile &&
    (ev.subtype == none || ev.subtype == some "file_share") &&
    (strFalsy ev.thread_ts || ev.ts == ev.thread_ts)
  | _, _ => false

/-- `prefilter_requests` (listener.py lines 52-134): events and slash
commands are checked; every other request type passes through. -/
def prefilter_requests (w : World) (req : Req) : Bool :=
  match req with
  | Req.eventsApi ev => prefilterEvents w ev
  | Req.slashCommands ch _ uid => !strFalsy ch && !strFalsy uid
  | _ => true

/-- `build_request_details` (listener.py lines 163-201). -/
def build_request_details (w : World) (req : Req) :
    Except PyExn SlackMessageInfo :=
  match req with
  | Req.eventsApi ev =>
    match ev.text, ev.channel with
    | some msg, some channel =>
      let tagged := ev.type == some "app_mention"
      Except.ok
        { msg_content := if tagged then stripMention w.botTagId msg else msg
          channel_to_respond := channel
          msg_to_respond := pyOr ev.thread_ts ev.ts
          sender := if strFalsy ev.user then none else ev.user
          bipass_filters := tagged
          is_bot_msg := false }
    | _, _ => Except.error PyExn.keyError
  | Req.slashCommands ch txt uid =>
    match ch, uid with
    | some channel, some sender =>
      Except.ok
        { msg_content := txt
          channel_to_respond := channel
          msg_to_respond := none
          sender := some sender
          bipass_filters := true
          is_bot_msg := true }
    | _, _ => Except.error PyExn.keyError
  | _ => Except.error (PyExn.runtimeErr "Programming fault, this should never happen.")

/-- `send_msg_ack_to_user` (listener.py lines 204-220): ephemeral note for
slash commands with a sender, emoji reaction otherwise. -/
def send_msg_ack_to_user (w : World) (info : SlackMessageInfo) :
    List Effect × Option PyExn :=
  if info.is_bot_msg && !strFalsy info.sender then
    ([Effect.ephemeralAck (info.sender.getD "")], w.ackExn)
  else ([Effect.reactAdd], w.ackExn)

/-- `remove_react` (listener.py lines 223-232): a no-op for slash-command
invocations, reaction removal otherwise. -/
def remove_react (w : World) (info : SlackMessageInfo) :
    List Effect × Option PyExn :=
  if info.is_bot_msg then ([], none)
  else ([Effect.reactRemove], w.removeExn)

/-- `apologize_for_fail` (listener.py lines 235-244). -/
def apologize_for_fail (w : World) : List Effect × Option PyExn :=
  ([Effect.apology], w.apologyExn)

/-- The `try ... except SlackApiError` wrappers in `process_message`:
`SlackApiError` is swallowed, any other exception keeps propagating. -/
def catchSlackApi : List Effect × Option PyExn → List Effect × Option PyExn
  | (t, some PyExn.slackApi) => (t, none)
  | r => r

/-- `process_feedback` (listener.py lines 137-160): without actions it
logs and returns; otherwise the feedback handler runs (and may raise)
before the confirmation is recorded. -/
def process_feedback (w : World) (hasActions : Bool) :
    List Effect × Option PyExn :=
  if !hasActions then ([], none)
  else
    match w.feedbackExn with
    | some e => ([], some e)
    | none => ([Effect.feedbackConfirm], none)

/-- Lines 277-295 of `process_message`: the working signal, orchestration,
the apology on failure, and the reaction removal.  Note the code's control
flow: an exception escaping `handle_message` or `apologize_for_fail`
propagates immediately and `remove_react` is then never reached. -/
def process_message_tail (w : World) (details : SlackMessageInfo)
    (cfg : Option SlackBotConfig) (p : Params) : List Effect × Option PyExn :=
  let a := catchSlackApi (send_msg_ack_to_user w details)
  match a.2 with
  | some e => (a.1, some e)
  | none =>
    let h := handle_message w details cfg p.numRetries
      p.shouldRespondErrs p.disableDocsOnly p.reflexionDefault
    match h.2 with
    | Except.error e => (a.1 ++ h.1, some e)
    | Except.ok failed =>
      let ap := if failed then apologize_for_fail w else ([], none)
      match ap.2 with
      | some e => (a.1 ++ h.1 ++ ap.1, some e)
      | none =>
        let r := catchSlackApi (remove_react w details)
        (a.1 ++ h.1 ++ ap.1 ++ r.1, r.2)

/-- `process_message` (listener.py lines 247-295). -/
def process_message (w : World) (req : Req) (p : Params) :
    List Effect × Option PyExn :=
  if !prefilter_requests w req then ([], none)
  else
    match build_request_details w req with
    | Except.error e => ([], some e)
    | Except.ok details =>
      let cfg := w.getConfig (w.channelNameOf details.channel_to_respond)
      if cfg.isNone && !p.respondEveryChannel then ([], none)
      else process_message_tail w details cfg p

/-- The event routing inside the dispatcher's try block (listener.py lines
308-313). -/
def routeEvent (w : World) (req : Req) (p : Params) :
    List Effect × Option PyExn :=
  match req with
  | Req.interactive pt hasActions =>
    if pt = some "block_actions" then process_feedback w hasActions
    else ([], none)
  | Req.eventsApi _ => process_message w req p
  | Req.slashCommands _ _ _ => process_message w req p
  | Req.otherReq => ([], none)

/-- `process_slack_event` (listener.py lines 303-315): acknowledge first,
then route; the blanket `except Exception` swallows whatever the routed
path raised. -/
def process_slack_event (w : World) (req : Req) (p : Params) :
    List Effect × Option PyExn :=
  let routed := routeEvent w req p
  (Effect.ackEvent :: routed.1, none)

/-! ## Observables over traces -/

/-- Whether an effect is an engine invocation. -/
def isEngineCall : Effect → Bool
  | Effect.engineCall _ _ => true
  | _ => false

/-- Number of engine invocations recorded in a trace. -/
def countEngine (t : List Effect) : Nat :=
  (t.filter isEngineCall).length

/-- Whether a single attempt of `_get_answer` raises (either the engine
raised or the response carried a truthy `error_msg`). -/
def attemptFails (w : World) (i : Nat) : Bool :=
  match attemptOnce w i with
  | Except.error _ => true
  | Except.ok _ => false

/-- The channel identity a request names (`event["channel"]` or
`payload["channel_id"]`). -/
def reqChannel : Req → Option String
  | Req.eventsApi ev => ev.channel
  | Req.slashCommands ch _ _ => ch
  | _ => none

/-! ## Concrete instances used to evaluate the theorems -/

/-- An engine response that passes every classification check. -/
def ansGood : QAResponse :=
  { answer := some "X is Y", quotes := [], top_ranked_docs := ["doc1"]
    eval_res_valid := some true, error_msg := none, query_event_id := 1 }

/-- An engine response rejected by the reflexion check, although it has
answer text and a ranked document. -/
def ansInvalid : QAResponse :=
  { answer := some "confident nonsense", quotes := ["q"], top_ranked_docs := ["doc1"]
    eval_res_valid := some false, error_msg := none, query_event_id := 2 }

/-- A world where every collaborator behaves: the engine answers well on
every attempt, no platform call raises, every channel is unconfigured. -/
def w0 : World :=
  { engine := fun _ => Except.ok ansGood
    fetchUserIds := Except.ok ["U9"]
    clarifyExn := none, mainPostExn := none, teamPostExn := none
    errPostExn := none, apologyExn := none, ackExn := none
    removeExn := none, feedbackExn := none
    botTagId := "U0BOT"
    channelNameOf := fun c => c
    getConfig := fun _ => none }

/-- A config present in storage but with an empty configuration bundle. -/
def cfgEmpty : SlackBotConfig := { persona := none, channel_config := none }

/-- A config whose channel dictionary sets `respond_tag_only = True`. -/
def cfgTagOnly : SlackBotConfig :=
  { persona := none
    channel_config := some
      { answer_filters := none, respond_tag_only := some true
        respond_team_member_list := none } }

/-- A config with a non-empty `respond_team_member_list`. -/
def cfgTeam : SlackBotConfig :=
  { persona := none
    channel_config := some
      { answer_filters := none, respond_tag_only := none
        respond_team_member_list := some ["a@x.com"] } }

/-- A config whose `answer_filters` enables the reflexion postfilter. -/
def cfgReflex : SlackBotConfig :=
  { persona := none
    channel_config := some
      { answer_filters := some ["well_answered_postfilter"]
        respond_tag_only := none, respond_team_member_list := none } }

/-- A passive (non-mention) message request record. -/
def infoPlain : SlackMessageInfo :=
  { msg_content := "what is X?", channel_to_respond := "C1"
    msg_to_respond := some "11.22", sender := some "U1"
    bipass_filters := false, is_bot_msg := false }

/-- A mention (tagged) message request record: filters bypassed. -/
def infoTagged : SlackMessageInfo :=
  { msg_content := "what is X?", channel_to_respond := "C1"
    msg_to_respond := some "11.22", sender := some "U1"
    bipass_filters := true, is_bot_msg := false }

/-- A slash-command invocation record. -/
def infoCmd : SlackMessageInfo :=
  { msg_content := "what is X?", channel_to_respond := "C1"
    msg_to_respond := none, sender := some "U1"
    bipass_filters := true, is_bot_msg := true }

/-- A well-formed mention event. -/
def evMention : SlackEvent :=
  { type := some "app_mention", text := some "<@U0BOT> what is X?"
    channel := some "C1", ts := some "11.22", thread_ts := none
    user := some "U1", bot_profile := false, subtype := none }

/-- The world of `w0` with an engine that raises on every attempt. -/
def wEngineFail : World :=
  { w0 with engine := fun _ => Except.error PyExn.slackApi }

/-- The world of `w0` with an engine whose answers fail the reflexion
check on every attempt. -/
def wInvalid : World :=
  { w0 with engine := fun _ => Except.ok ansInvalid }

/-- A world where the member-id lookup for the team routing list raises
and every channel is configured with a team routing list. -/
def wC5 : World :=
  { w0 with fetchUserIds := Except.error PyExn.slackApi
            getConfig := fun _ => some cfgTeam }

/-- The world of `w0` with every channel configured (empty bundle). -/
def wCfgEmpty : World :=
  { w0 with getConfig := fun _ => some cfgEmpty }

/-- A world where every channel is configured (empty bundle) and posting
the main reply raises. -/
def wPostFail : World :=
  { w0 with mainPostExn := some PyExn.slackApi
            getConfig := fun _ => some cfgEmpty }

/-- A mention event whose text regains a mention token after one stripping
pass: `"<@U0BOT<@U0BOT> > x"` strips to `"<@U0BOT> x"`, which strips again
to `"x"`. -/
def evTricky : SlackEvent :=
  { type := some "app_mention", text := some "<@U0BOT<@U0BOT> > x"
    channel := some "C1", ts := some "1.1", thread_ts := none
    user := some "U1", bot_profile := false, subtype := none }

/-! ## Supporting lemmas -/

theorem stripPrefixChars_self_append (p s : List Char) :
    stripPrefixChars p (p ++ s) = some s := by
  induction p with
  | nil => rfl
  | cons c cs ih => simp [stripPrefixChars, ih]

theorem reSubTokWsAux_fuel {tok : List Char} :
    ∀ {f : Nat} {s : List Char}, s.length ≤ f →
      reSubTokWsAux tok f s = reSubTokWsAux tok s.length s := by
  intro f
  induction f using Nat.strong_induction_on with
  | _ f ih =>
    intro s hs
    match f, s with
    | 0, s =>
      interval_cases hlen : s.length
      · cases s
        · rfl
        · simp at hlen
    | f + 1, [] => rfl
    | f + 1, c :: cs =>
      simp only [List.length_cons] at hs
      have hcs : cs.length ≤ f := by omega
      show (match matchTokWs tok (c :: cs) with
        | some rest => reSubTokWsAux tok f rest
        | none => c :: reSubTokWsAux tok f cs) =
        (match matchTokWs tok (c :: cs) with
        | some rest => reSubTokWsAux tok cs.length rest
        | none => c :: reSubTokWsAux tok cs.length cs)
      cases hm : matchTokWs tok (c :: cs) with
      | some rest =>
        have hlt := matchTokWs_length hm
        simp only [List.length_cons] at hlt
        dsimp only
        rw [ih f (Nat.lt_succ_self f) (by omega),
          ih cs.length (by omega) (by omega)]
      | none =>
        dsimp only
        rw [ih f (Nat.lt_succ_self f) (by omega)]

theorem reSubTokWs_step {tok l rest : List Char}
    (h : matchTokWs tok l = some rest) (hl : l ≠ []) :
    reSubTokWs tok l = reSubTokWs tok rest := by
  cases l with
  | nil => exact absurd rfl hl
  | cons c cs =>
    have hlt := matchTokWs_length h
    simp only [List.length_cons] at hlt
    show reSubTokWsAux tok (c :: cs).length (c :: cs) = reSubTokWs tok rest
    simp only [List.length_cons]
    show (match matchTokWs tok (c :: cs) with
      | some r => reSubTokWsAux tok cs.length r
      | none => c :: reSubTokWsAux tok cs.length cs) = reSubTokWs tok rest
    rw [h]
    dsimp only
    exact reSubTokWsAux_fuel (by omega)

theorem reSubTokWs_cons_none {tok : List Char} {c : Char} {cs : List Char}
    (h : matchTokWs tok (c :: cs) = none) :
    reSubTokWs tok (c :: cs) = c :: reSubTokWs tok cs := by
  show reSubTokWsAux tok (c :: cs).length (c :: cs) = c :: reSubTokWs tok cs
  simp only [List.length_cons]
  show (match matchTokWs tok (c :: cs) with
    | some r => reSubTokWsAux tok cs.length r
    | none => c :: reSubTokWsAux tok cs.length cs) = c :: reSubTokWs tok cs
  rw [h]
  dsimp only
  rfl

theorem reSubTokWs_of_not_contains {tok : List Char} :
    ∀ {s : List Char}, containsChars tok s = false → reSubTokWs tok s = s := by
  intro s
  induction s with
  | nil => intro _; rfl
  | cons c cs ih =>
    intro h
    simp only [containsChars, Bool.or_eq_false_iff] at h
    have hsp : stripPrefixChars tok (c :: cs) = none := by
      cases hsp : stripPrefixChars tok (c :: cs) with
      | none => rfl
      | some r => rw [hsp] at h; simp at h
    have hm : matchTokWs tok (c :: cs) = none := by
      unfold matchTokWs
      rw [hsp]
    rw [reSubTokWs_cons_none hm, ih h.2]

theorem catchSlackApi_fst (x : List Effect × Option PyExn) :
    (catchSlackApi x).1 = x.1 := by
  rcases x with ⟨t, e⟩
  rcases e with _ | e
  · rfl
  · cases e <;> rfl

theorem retryLoop_zero (w : World) (r : Bool) (i : Nat) :
    retryLoop w r i 0 =
      ([], Except.error (PyExn.runtimeErr "retry requires a positive tries count")) := by
  rfl

theorem retryLoop_succ_ok {w : World} {i : Nat} {a : QAResponse}
    (hA : attemptOnce w i = Except.ok a) (r : Bool) (n : Nat) :
    retryLoop w r i (n + 1) = ([Effect.engineCall i r], Except.ok a) := by
  unfold retryLoop
  rw [hA]

theorem retryLoop_one_err {w : World} {i : Nat} {e : PyExn}
    (hA : attemptOnce w i = Except.error e) (r : Bool) :
    retryLoop w r i 1 = ([Effect.engineCall i r], Except.error e) := by
  unfold retryLoop
  rw [hA]

theorem retryLoop_succ_err {w : World} {i : Nat} {e : PyExn}
    (hA : attemptOnce w i = Except.error e) (r : Bool) (m : Nat) :
    retryLoop w r i (m + 2) =
      (Effect.engineCall i r :: (retryLoop w r (i + 1) (m + 1)).1,
       (retryLoop w r (i + 1) (m + 1)).2) := by
  conv_lhs => unfold retryLoop
  rw [hA]

theorem mem_retryLoop {w : World} {r : Bool} {e : Effect} :
    ∀ {n i : Nat}, e ∈ (retryLoop w r i n).1 → ∃ k, e = Effect.engineCall k r := by
  intro n
  induction n with
  | zero => intro i h; rw [retryLoop_zero] at h; cases h
  | succ n ih =>
    intro i h
    cases hA : attemptOnce w i with
    | ok a =>
      rw [retryLoop_succ_ok hA] at h
      simp only [List.mem_singleton] at h
      exact ⟨i, h⟩
    | error e' =>
      cases n with
      | zero =>
        rw [retryLoop_one_err hA] at h
        simp only [List.mem_singleton] at h
        exact ⟨i, h⟩
      | succ m =>
        rw [retryLoop_succ_err hA] at h
        rcases List.mem_cons.mp h with h | h
        · exact ⟨i, h⟩
        · exact ih h

theorem countEngine_cons_engineCall (i : Nat) (r : Bool) (t : List Effect) :
    countEngine (Effect.engineCall i r :: t) = countEngine t + 1 := by
  simp [countEngine, isEngineCall, List.filter]

theorem retryLoop_allFail {w : World} {r : Bool} :
    ∀ {n i : Nat}, (∀ j, j < n → attemptFails w (i + j) = true) →
      countEngine (retryLoop w r i n).1 = n ∧
      ∃ e, (retryLoop w r i n).2 = Except.error e := by
  intro n
  induction n with
  | zero =>
    intro i _
    rw [retryLoop_zero]
    exact ⟨by simp [countEngine], ⟨_, rfl⟩⟩
  | succ n ih =>
    intro i hf
    have h0 : attemptFails w i = true := by simpa using hf 0 (Nat.succ_pos n)
    unfold attemptFails at h0
    cases hA : attemptOnce w i with
    | ok a => rw [hA] at h0; simp at h0
    | error e' =>
      cases n with
      | zero =>
        rw [retryLoop_one_err hA]
        exact ⟨by simp [countEngine, isEngineCall], ⟨e', rfl⟩⟩
      | succ m =>
        have hf' : ∀ j, j < m + 1 → attemptFails w (i + 1 + j) = true := by
          intro j hj
          have := hf (j + 1) (by omega)
          simpa [Nat.add_assoc, Nat.add_comm 1 j] using this
        obtain ⟨hcnt, e2, herr⟩ := ih hf'
        rw [retryLoop_succ_err hA]
        refine ⟨?_, e2, herr⟩
        rw [countEngine_cons_engineCall, hcnt]

theorem retryLoop_head {w : World} (r : Bool) (i : Nat) {n : Nat} (hn : 1 ≤ n) :
    ∃ t', (retryLoop w r i n).1 = Effect.engineCall i r :: t' := by
  cases n with
  | zero => omega
  | succ n =>
    cases hA : attemptOnce w i with
    | ok a => exact ⟨[], by rw [retryLoop_succ_ok hA]⟩
    | error e' =>
      cases n with
      | zero => exact ⟨[], by rw [retryLoop_one_err hA]⟩
      | succ m => exact ⟨_, by rw [retryLoop_succ_err hA]⟩

theorem countEngine_append (a b : List Effect) :
    countEngine (a ++ b) = countEngine a + countEngine b := by
  simp [countEngine, List.filter_append]

theorem teamStage_shape (w : World) (info : SlackMessageInfo)
    (tl : Option (List String)) :
    (teamStage w info tl).1 = [] ∨
    (teamStage w info tl).1 = [Effect.fetchUserIdsCall] ∨
    ∃ s, (teamStage w info tl).1 = [Effect.fetchUserIdsCall, Effect.clarify s] := by
  unfold teamStage
  rcases tl with _ | l
  · exact Or.inl rfl
  · rcases w.fetchUserIds with e | ids
    · exact Or.inr (Or.inl rfl)
    · by_cases hb : info.is_bot_msg
      · simp only [hb, if_true]
        rcases info.sender with _ | s
        · exact Or.inr (Or.inl rfl)
        · rcases w.clarifyExn with _ | e
          · exact Or.inr (Or.inr ⟨s, rfl⟩)
          · exact Or.inr (Or.inr ⟨s, rfl⟩)
      · simp only [hb, if_false]
        exact Or.inr (Or.inl rfl)

theorem countEngine_teamStage (w : World) (info : SlackMessageInfo)
    (tl : Option (List String)) : countEngine (teamStage w info tl).1 = 0 := by
  rcases teamStage_shape w info tl with h | h | ⟨s, h⟩ <;>
    simp [h, countEngine, isEngineCall]

theorem postAnswer_not_mem_teamStage (w : World) (info : SlackMessageInfo)
    (tl : Option (List String)) :
    Effect.postAnswer ∉ (teamStage w info tl).1 := by
  rcases teamStage_shape w info tl with h | h | ⟨s, h⟩ <;> simp [h]

theorem engineCall_not_mem_teamStage (w : World) (info : SlackMessageInfo)
    (tl : Option (List String)) (i : Nat) (r : Bool) :
    Effect.engineCall i r ∉ (teamStage w info tl).1 := by
  rcases teamStage_shape w info tl with h | h | ⟨s, h⟩ <;> simp [h]

theorem teamStage_ok (w : World) (info : SlackMessageInfo)
    {tl : Option (List String)}
    (hfetch : tl = none ∨ ∃ ids, w.fetchUserIds = Except.ok ids)
    (hclar : w.clarifyExn = none) :
    ∃ t, teamStage w info tl = (t, Except.ok ()) := by
  unfold teamStage
  rcases tl with _ | l
  · exact ⟨[], rfl⟩
  · rcases hfetch with h | ⟨ids, h⟩
    · cases h
    · rw [h]
      by_cases hb : info.is_bot_msg
      · simp only [hb, if_true]
        rcases info.sender with _ | s
        · exact ⟨_, rfl⟩
        · rw [hclar]; exact ⟨_, rfl⟩
      · simp only [hb, if_false]
        exact ⟨_, rfl⟩

theorem classify_shape (w : World) (ans : QAResponse)
    (tl : Option (List String)) (se ddo : Bool) (i : Nat) (r : Bool) :
    Effect.engineCall i r ∉ (classifyAndRespond w ans tl se ddo).1 := by
  unfold classifyAndRespond
  split
  · simp
  · split
    · split
      · split <;> simp
      · simp
    · split
      · simp
      · split
        · simp
        · split
          · split <;> simp
          · simp

theorem handle_message_retry_err {w : World} {info : SlackMessageInfo}
    {cfg : Option SlackBotConfig} {n : Nat} {se ddo rd : Bool}
    {t1 t2 : List Effect} {e : PyExn}
    (hqm : questionmarkSkip info.msg_content info.bipass_filters cfg = false)
    (htag : (resolvedRespondTagOnly cfg && !info.bipass_filters) = false)
    (hteam : teamStage w info (resolvedTeamList cfg) = (t1, Except.ok ()))
    (hret : retryLoop w (resolvedReflexion rd info.bipass_filters cfg) 0 n =
      (t2, Except.error e))
    (herrp : w.errPostExn = none) :
    handle_message w info cfg n se ddo rd =
      (t1 ++ t2 ++ (if se then [Effect.postErr] else []), Except.ok true) := by
  unfold handle_message
  rw [hqm, htag]
  simp only [Bool.false_eq_true, if_false, hteam, hret, herrp]
  cases se <;> simp

theorem handle_message_retry_ok {w : World} {info : SlackMessageInfo}
    {cfg : Option SlackBotConfig} {n : Nat} {se ddo rd : Bool}
    {t1 t2 : List Effect} {ans : QAResponse}
    (hqm : questionmarkSkip info.msg_content info.bipass_filters cfg = false)
    (htag : (resolvedRespondTagOnly cfg && !info.bipass_filters) = false)
    (hteam : teamStage w info (resolvedTeamList cfg) = (t1, Except.ok ()))
    (hret : retryLoop w (resolvedReflexion rd info.bipass_filters cfg) 0 n =
      (t2, Except.ok ans)) :
    handle_message w info cfg n se ddo rd =
      (t1 ++ t2 ++ (classifyAndRespond w ans (resolvedTeamList cfg) se ddo).1,
       (classifyAndRespond w ans (resolvedTeamList cfg) se ddo).2) := by
  unfold handle_message
  rw [hqm, htag]
  simp only [Bool.false_eq_true, if_false, hteam, hret]

theorem handle_message_team_err {w : World} {info : SlackMessageInfo}
    {cfg : Option SlackBotConfig} {n : Nat} {se ddo rd : Bool}
    {t1 : List Effect} {e : PyExn}
    (hqm : questionmarkSkip info.msg_content info.bipass_filters cfg = false)
    (htag : (resolvedRespondTagOnly cfg && !info.bipass_filters) = false)
    (hteam : teamStage w info (resolvedTeamList cfg) = (t1, Except.error e)) :
    handle_message w info cfg n se ddo rd = (t1, Except.error e) := by
  unfold handle_message
  rw [hqm, htag]
  simp only [Bool.false_eq_true, if_false, hteam]

theorem handle_message_retry_err_trace {w : World} {info : SlackMessageInfo}
    {cfg : Option SlackBotConfig} {n : Nat} {se ddo rd : Bool}
    {t1 t2 : List Effect} {e : PyExn}
    (hqm : questionmarkSkip info.msg_content info.bipass_filters cfg = false)
    (htag : (resolvedRespondTagOnly cfg && !info.bipass_filters) = false)
    (hteam : teamStage w info (resolvedTeamList cfg) = (t1, Except.ok ()))
    (hret : retryLoop w (resolvedReflexion rd info.bipass_filters cfg) 0 n =
      (t2, Except.error e)) :
    (handle_message w info cfg n se ddo rd).1 =
      t1 ++ t2 ++ (if se then [Effect.postErr] else []) := by
  unfold handle_message
  rw [hqm, htag]
  simp only [Bool.false_eq_true, if_false, hteam, hret]
  cases se
  · simp
  · cases hE : w.errPostExn <;> simp

theorem engineCall_mem_handle {w : World} {info : SlackMessageInfo}
    {cfg : Option SlackBotConfig} {n : Nat} {se ddo rd : Bool} {i : Nat} {r : Bool}
    (h : Effect.engineCall i r ∈ (handle_message w info cfg n se ddo rd).1) :
    Effect.engineCall i r ∈
      (retryLoop w (resolvedReflexion rd info.bipass_filters cfg) 0 n).1 := by
  rcases Bool.eq_false_or_eq_true
      (questionmarkSkip info.msg_content info.bipass_filters cfg) with hqm | hqm
  · simp [handle_message, hqm] at h
  · rcases Bool.eq_false_or_eq_true
        (resolvedRespondTagOnly cfg && !info.bipass_filters) with htag | htag
    · simp [handle_message, hqm, htag] at h
    · rcases hT : teamStage w info (resolvedTeamList cfg) with ⟨t1, r1⟩
      have hnotT : Effect.engineCall i r ∉ t1 := by
        have := engineCall_not_mem_teamStage w info (resolvedTeamList cfg) i r
        rw [hT] at this
        exact this
      cases r1 with
      | error e1 =>
        rw [handle_message_team_err hqm htag hT] at h
        exact absurd h hnotT
      | ok u =>
        cases u
        rcases hR : retryLoop w (resolvedReflexion rd info.bipass_filters cfg) 0 n
          with ⟨t2, r2⟩
        cases r2 with
        | error e2 =>
          rw [handle_message_retry_err_trace hqm htag hT hR] at h
          simp only [List.mem_append] at h
          rcases h with (h | h) | h
          · exact absurd h hnotT
          · exact h
          · cases se <;> simp_all
        | ok ans =>
          rw [handle_message_retry_ok hqm htag hT hR] at h
          simp only [List.mem_append] at h
          rcases h with (h | h) | h
          · exact absurd h hnotT
          · exact h
          · exact absurd h (classify_shape w ans (resolvedTeamList cfg) se ddo i r)

theorem engineCall_flag {w : World} {info : SlackMessageInfo}
    {cfg : Option SlackBotConfig} {n : Nat} {se ddo rd : Bool} {i : Nat} {r : Bool}
    (h : Effect.engineCall i r ∈ (handle_message w info cfg n se ddo rd).1) :
    r = resolvedReflexion rd info.bipass_filters cfg := by
  obtain ⟨k, hk⟩ := mem_retryLoop (engineCall_mem_handle h)
  injection hk with h1 h2

theorem catchSlackApi_none {x : List Effect × Option PyExn} (h : x.2 = none) :
    catchSlackApi x = x := by
  rcases x with ⟨t, e⟩
  simp only at h
  rw [h]
  rfl

theorem send_msg_ack_snd (w : World) (info : SlackMessageInfo) :
    (send_msg_ack_to_user w info).2 = w.ackExn := by
  unfold send_msg_ack_to_user
  split <;> rfl

theorem remove_react_not_bot {w : World} {info : SlackMessageInfo}
    (hbot : info.is_bot_msg = false) :
    remove_react w info = ([Effect.reactRemove], w.removeExn) := by
  unfold remove_react
  rw [hbot]
  rfl

theorem process_message_reaches_tail {w : World} {req : Req} {p : Params}
    {info : SlackMessageInfo}
    (hpre : prefilter_requests w req = true)
    (hbuild : build_request_details w req = Except.ok info)
    (hgate : ((w.getConfig (w.channelNameOf info.channel_to_respond)).isNone &&
      !p.respondEveryChannel) = false) :
    process_message w req p =
      process_message_tail w info
        (w.getConfig (w.channelNameOf info.channel_to_respond)) p := by
  simp only [process_message, hpre, Bool.not_true, Bool.false_eq_true, if_false,
    hbuild, hgate]

theorem process_message_tail_apology {w : World} {info : SlackMessageInfo}
    {cfg : Option SlackBotConfig} {p : Params}
    (hack : w.ackExn = none)
    (hhm : (handle_message w info cfg p.numRetries p.shouldRespondErrs
      p.disableDocsOnly p.reflexionDefault).2 = Except.ok true) :
    Effect.apology ∈ (process_message_tail w info cfg p).1 := by
  have ha2 : (send_msg_ack_to_user w info).2 = none := by
    rw [send_msg_ack_snd, hack]
  have ha : catchSlackApi (send_msg_ack_to_user w info) =
      send_msg_ack_to_user w info := catchSlackApi_none ha2
  unfold process_message_tail
  rw [ha]
  simp only [ha2, hhm]
  cases hA : w.apologyExn <;> simp [apologize_for_fail, hA]

theorem process_message_tail_clear {w : World} {info : SlackMessageInfo}
    {cfg : Option SlackBotConfig} {p : Params} {failed : Bool}
    (hack : w.ackExn = none)
    (hbot : info.is_bot_msg = false)
    (hhm : (handle_message w info cfg p.numRetries p.shouldRespondErrs
      p.disableDocsOnly p.reflexionDefault).2 = Except.ok failed)
    (hapo : failed = true → w.apologyExn = none) :
    Effect.reactRemove ∈ (process_message_tail w info cfg p).1 := by
  have ha2 : (send_msg_ack_to_user w info).2 = none := by
    rw [send_msg_ack_snd, hack]
  have ha : catchSlackApi (send_msg_ack_to_user w info) =
      send_msg_ack_to_user w info := catchSlackApi_none ha2
  unfold process_message_tail
  rw [ha]
  simp only [ha2, hhm]
  have h1 : (catchSlackApi (remove_react w info)).1 = [Effect.reactRemove] := by
    rw [catchSlackApi_fst, remove_react_not_bot hbot]
  cases failed with
  | true =>
    simp only [apologize_for_fail, hapo rfl]
    simp [h1]
  | false => simp [h1]

/-! ## Claim theorems -/

/-- C1: for every inbound event, `process_slack_event` acknowledges the
raw event before any routing or processing work (the acknowledgment is the
first effect of its trace), and no exception raised in the routed path
(feedback handling or the message path) propagates out of it (its
exception component is always `none`, whatever the collaborators do). -/
theorem c1_ack_first_and_exception_isolation (w : World) (req : Req) (p : Params) :
    (process_slack_event w req p).1.head? = some Effect.ackEvent ∧
    (process_slack_event w req p).2 = none :=
  ⟨rfl, rfl⟩

/-- C2: if every one of the `n` configured attempts of the QA engine call
raises (or returns a response carrying an error message), `handle_message`
returns `Except.ok true` — the value that triggers exactly one apology
reply in `process_message` — and the engine was invoked exactly `n` times,
never more. -/
theorem c2_exhausted_retries (w : World) (info : SlackMessageInfo)
    (cfg : Option SlackBotConfig) (n : Nat) (se ddo rd : Bool) (t1 : List Effect)
    (hN : 1 ≤ n)
    (hfail : ∀ j, j < n → attemptFails w j = true)
    (hqm : questionmarkSkip info.msg_content info.bipass_filters cfg = false)
    (htag : (resolvedRespondTagOnly cfg && !info.bipass_filters) = false)
    (hteam : teamStage w info (resolvedTeamList cfg) = (t1, Except.ok ()))
    (herrp : w.errPostExn = none) :
    (handle_message w info cfg n se ddo rd).2 = Except.ok true ∧
    countEngine (handle_message w info cfg n se ddo rd).1 = n := by
  have hfail0 : ∀ j, j < n → attemptFails w (0 + j) = true := by simpa using hfail
  obtain ⟨hcnt, e, herr⟩ :=
    retryLoop_allFail (r := resolvedReflexion rd info.bipass_filters cfg) hfail0
  obtain ⟨t2, hret⟩ : ∃ t2,
      retryLoop w (resolvedReflexion rd info.bipass_filters cfg) 0 n =
        (t2, Except.error e) :=
    ⟨(retryLoop w (resolvedReflexion rd info.bipass_filters cfg) 0 n).1, by
      rw [← herr]⟩
  rw [handle_message_retry_err hqm htag hteam hret herrp]
  refine ⟨rfl, ?_⟩
  rw [countEngine_append, countEngine_append]
  have h1 : countEngine t1 = 0 := by
    have := countEngine_teamStage w info (resolvedTeamList cfg)
    rw [hteam] at this
    exact this
  have h2 : countEngine t2 = n := by
    rw [hret] at hcnt
    exact hcnt
  have h3 : countEngine (if se then [Effect.postErr] else []) = 0 := by
    cases se <;> simp [countEngine, isEngineCall]
  omega

/-- Witness for C2 at a concrete input: an engine raising on all 3
attempts, a plain message, no channel config. -/
theorem c2_exhausted_retries_witness :
    (handle_message wEngineFail infoPlain none 3 false false false).2 =
      Except.ok true ∧
    countEngine (handle_message wEngineFail infoPlain none 3 false false false).1 = 3 :=
  c2_exhausted_retries wEngineFail infoPlain none 3 false false false []
    (by decide) (by decide) rfl rfl rfl rfl

/-- C3: for every engine response returned successfully but with
`eval_res_valid` equal to `False`, `handle_message` takes the
failure-reporting branch (`Except.ok true`), regardless of the response's
answer text or ranked documents, and the discarded answer is never posted
(no `postAnswer` effect occurs in the trace). -/
theorem c3_low_confidence_discarded (w : World) (info : SlackMessageInfo)
    (cfg : Option SlackBotConfig) (n : Nat) (se ddo rd : Bool)
    (t1 t2 : List Effect) (ans : QAResponse)
    (hqm : questionmarkSkip info.msg_content info.bipass_filters cfg = false)
    (htag : (resolvedRespondTagOnly cfg && !info.bipass_filters) = false)
    (hteam : teamStage w info (resolvedTeamList cfg) = (t1, Except.ok ()))
    (hret : retryLoop w (resolvedReflexion rd info.bipass_filters cfg) 0 n =
      (t2, Except.ok ans))
    (heval : ans.eval_res_valid = some false) :
    (handle_message w info cfg n se ddo rd).2 = Except.ok true ∧
    Effect.postAnswer ∉ (handle_message w info cfg n se ddo rd).1 := by
  have hcls : classifyAndRespond w ans (resolvedTeamList cfg) se ddo =
      ([], Except.ok true) := by
    unfold classifyAndRespond
    rw [heval]
    simp
  rw [handle_message_retry_ok hqm htag hteam hret, hcls]
  refine ⟨rfl, ?_⟩
  have h1 : Effect.postAnswer ∉ t1 := by
    have := postAnswer_not_mem_teamStage w info (resolvedTeamList cfg)
    rw [hteam] at this
    exact this
  have h2 : Effect.postAnswer ∉ t2 := by
    intro hm
    obtain ⟨k, hk⟩ := mem_retryLoop (show Effect.postAnswer ∈
      (retryLoop w (resolvedReflexion rd info.bipass_filters cfg) 0 n).1 by
        rw [hret]; exact hm)
    cases hk
  simp only [List.append_nil, List.mem_append]
  rintro (h | h)
  · exact h1 h
  · exact h2 h

/-- Witness for C3 at a concrete input: the engine immediately returns an
answer with documents and text but `eval_res_valid = False`. -/
theorem c3_low_confidence_discarded_witness :
    (handle_message wInvalid infoPlain none 1 false false false).2 =
      Except.ok true ∧
    Effect.postAnswer ∉ (handle_message wInvalid infoPlain none 1 false false false).1 :=
  c3_low_confidence_discarded wInvalid infoPlain none 1 false false false
    [] [Effect.engineCall 0 false] ansInvalid rfl rfl rfl rfl rfl

/-- C4: for every request with `bipass_filters = false` under a channel
config resolving `respond_tag_only` to true, `handle_message` returns the
clean skip value `Except.ok false` with an empty trace: the engine is
never invoked, nothing is posted, and (because `process_message`
apologizes only on a `true` return) no apology is triggered. -/
theorem c4_tag_only_skips (w : World) (info : SlackMessageInfo)
    (cfg : Option SlackBotConfig) (n : Nat) (se ddo rd : Bool)
    (htag : resolvedRespondTagOnly cfg = true)
    (hbp : info.bipass_filters = false) :
    handle_message w info cfg n se ddo rd = ([], Except.ok false) := by
  rcases Bool.eq_false_or_eq_true
      (questionmarkSkip info.msg_content info.bipass_filters cfg) with hqm | hqm
  · simp [handle_message, hqm]
  · simp [handle_message, hqm, htag, hbp]

/-- Witness for C4 at a concrete input: plain message under a tag-only
config. -/
theorem c4_tag_only_skips_witness :
    handle_message w0 infoPlain (some cfgTagOnly) 3 false false false =
      ([], Except.ok false) :=
  c4_tag_only_skips w0 infoPlain (some cfgTagOnly) 3 false false false
    (by decide) (by decide)

/-- C6 counterexample: under a present channel config whose
`answer_filters` contains `well_answered_postfilter`, a request with
`bipass_filters = true` (a mention) is processed with the process-wide
default (`false`) passed to the engine call, not the membership value
(`true`): the claim that, whenever a config is present, the reflexion flag
equals membership of the postfilter in `answer_filters` is false at this
input. -/
theorem c6_reflexion_flag_counterexample :
    answerFiltersOf (some cfgReflex) = some ["well_answered_postfilter"] ∧
    ["well_answered_postfilter"].contains "well_answered_postfilter" = true ∧
    Effect.engineCall 0 false ∈
      (handle_message w0 infoTagged (some cfgReflex) 1 false false false).1 ∧
    Effect.engineCall 0 true ∉
      (handle_message w0 infoTagged (some cfgReflex) 1 false false false).1 := by
  refine ⟨rfl, rfl, ?_, ?_⟩ <;> decide

/-- C6 (amended): the reflexion flag recorded on every engine call equals
membership of `well_answered_postfilter` in the config's `answer_filters`
only when the request does not bypass filters and `answer_filters` is
configured; when the request bypasses filters (mention or command) or no
`answer_filters` entry is resolvable (in particular, when no config is
present) it equals the process-wide default. -/
theorem c6_reflexion_flag_resolution (w : World) (info : SlackMessageInfo)
    (cfg : Option SlackBotConfig) (n : Nat) (se ddo rd : Bool) (i : Nat)
    (r : Bool) (fs : List String)
    (h : Effect.engineCall i r ∈ (handle_message w info cfg n se ddo rd).1) :
    (info.bipass_filters = false → answerFiltersOf cfg = some fs →
      r = fs.contains "well_answered_postfilter") ∧
    (info.bipass_filters = true ∨ answerFiltersOf cfg = none → r = rd) := by
  have hr := engineCall_flag h
  constructor
  · intro hbp hfs
    rw [hr]
    unfold resolvedReflexion
    rw [hfs, hbp]
    simp
  · intro hcase
    rw [hr]
    unfold resolvedReflexion
    rcases hcase with hbp | hfs
    · rw [hbp]
      cases answerFiltersOf cfg <;> simp
    · rw [hfs]

/-- Witness for the amended C6 at a concrete input: a non-bypassing
request under the reflexion config records flag `true` on the engine
call. -/
theorem c6_reflexion_flag_resolution_witness :
    (infoPlain.bipass_filters = false →
      answerFiltersOf (some cfgReflex) = some ["well_answered_postfilter"] →
      true = ["well_answered_postfilter"].contains "well_answered_postfilter") ∧
    (infoPlain.bipass_filters = true ∨ answerFiltersOf (some cfgReflex) = none →
      true = false) :=
  c6_reflexion_flag_resolution w0 infoPlain (some cfgReflex) 1 false false false
    0 true ["well_answered_postfilter"] (by decide)

/-- C8: for every command invocation (`is_bot_msg = true` with a present
sender; such requests always carry `bipass_filters = true`) under a config
resolving a non-empty team routing list, when the member lookup and the
clarifying post succeed, the clarifying message is sent to the sender and
orchestration then continues normally: the QA engine is still invoked
right after it rather than the request being aborted. -/
theorem c8_command_clarify_then_answer (w : World) (info : SlackMessageInfo)
    (cfg : Option SlackBotConfig) (n : Nat) (se ddo rd : Bool) (s : String)
    (emails ids : List String)
    (hbot : info.is_bot_msg = true)
    (hs : info.sender = some s)
    (hbp : info.bipass_filters = true)
    (hteam : resolvedTeamList cfg = some emails)
    (hfetch : w.fetchUserIds = Except.ok ids)
    (hclar : w.clarifyExn = none)
    (hn : 1 ≤ n) :
    ∃ rest, (handle_message w info cfg n se ddo rd).1 =
      Effect.fetchUserIdsCall :: Effect.clarify s ::
        Effect.engineCall 0 rd :: rest := by
  have hqm : questionmarkSkip info.msg_content info.bipass_filters cfg = false := by
    unfold questionmarkSkip
    rw [hbp]
    cases answerFiltersOf cfg <;> simp
  have htag : (resolvedRespondTagOnly cfg && !info.bipass_filters) = false := by
    rw [hbp]
    simp
  have hT : teamStage w info (resolvedTeamList cfg) =
      ([Effect.fetchUserIdsCall, Effect.clarify s], Except.ok ()) := by
    rw [hteam]
    simp [teamStage, hfetch, hbot, hs, hclar]
  have hrefl : resolvedReflexion rd info.bipass_filters cfg = rd := by
    unfold resolvedReflexion
    rw [hbp]
    cases answerFiltersOf cfg <;> simp
  obtain ⟨t', ht'⟩ :=
    retryLoop_head (w := w) (resolvedReflexion rd info.bipass_filters cfg) 0 hn
  rcases hR : retryLoop w (resolvedReflexion rd info.bipass_filters cfg) 0 n
    with ⟨t2, r2⟩
  have ht2 : t2 = Effect.engineCall 0 rd :: t' := by
    rw [hR] at ht'
    rw [hrefl] at ht'
    exact ht'
  cases r2 with
  | error e =>
    refine ⟨t' ++ (if se then [Effect.postErr] else []), ?_⟩
    rw [handle_message_retry_err_trace hqm htag hT hR, ht2]
    simp
  | ok ans =>
    refine ⟨t' ++ (classifyAndRespond w ans (resolvedTeamList cfg) se ddo).1, ?_⟩
    rw [handle_message_retry_ok hqm htag hT hR, ht2]
    simp

/-- Witness for C8 at a concrete input: a slash command under the
team-routing config; the engine answers on the first attempt. -/
theorem c8_command_clarify_then_answer_witness :
    ∃ rest, (handle_message w0 infoCmd (some cfgTeam) 1 false false false).1 =
      Effect.fetchUserIdsCall :: Effect.clarify "U1" ::
        Effect.engineCall 0 false :: rest :=
  c8_command_clarify_then_answer w0 infoCmd (some cfgTeam) 1 false false false
    "U1" ["a@x.com"] ["U9"] rfl rfl rfl rfl rfl rfl (by decide)

theorem string_data_append (a b : String) : (a ++ b).data = a.data ++ b.data := by
  rcases a with ⟨la⟩
  rcases b with ⟨lb⟩
  rfl

theorem string_mk_data (s : String) : String.mk s.data = s := by
  rcases s with ⟨l⟩
  rfl

/-- C7 counterexample: the mention strip of `build_request_details` is a
single `re.sub` pass removing every occurrence of the bot token followed
by a whitespace character — not only the leading one (second conjunct) —
and it is not idempotent: on `"<@U0BOT<@U0BOT> > x"` one pass yields
`"<@U0BOT> x"` and a second pass yields `"x"` (first conjunct), refuting
the claim that re-stripping leaves every already-stripped text
unchanged. -/
theorem c7_strip_counterexample :
    stripMention "U0BOT" (stripMention "U0BOT" "<@U0BOT<@U0BOT> > x") ≠
      stripMention "U0BOT" "<@U0BOT<@U0BOT> > x" ∧
    stripMention "U0BOT" "hi <@U0BOT> there" = "hi there" := by
  refine ⟨?_, ?_⟩ <;> decide

/-- C7 (amended): the builder removes every occurrence of the bot-mention
token followed by one whitespace character in a single left-to-right pass;
for the common shape — the token at the head followed by a space, with no
further occurrence of the token in the remainder — it strips the leading
token exactly once and a second application is a no-op. -/
theorem c7_strip_once_of_no_more_tokens (tag rest : String)
    (h : containsChars ("<@" ++ tag ++ ">").data rest.data = false) :
    stripMention tag ("<@" ++ tag ++ "> " ++ rest) = rest ∧
    stripMention tag rest = rest := by
  have h2 : stripMention tag rest = rest := by
    unfold stripMention
    rw [reSubTokWs_of_not_contains h, string_mk_data]
  refine ⟨?_, h2⟩
  unfold stripMention
  have hdata : ("<@" ++ tag ++ "> " ++ rest).data =
      ("<@" ++ tag ++ ">").data ++ (' ' :: rest.data) := by
    rw [string_data_append, string_data_append, string_data_append,
      string_data_append]
    simp [List.append_assoc]
  rw [hdata]
  have hmatch : matchTokWs ("<@" ++ tag ++ ">").data
      (("<@" ++ tag ++ ">").data ++ (' ' :: rest.data)) = some rest.data := by
    unfold matchTokWs
    rw [stripPrefixChars_self_append]
    simp [isPySpace]
  have hne : ("<@" ++ tag ++ ">").data ++ (' ' :: rest.data) ≠ [] := by
    simp
  rw [reSubTokWs_step hmatch hne, reSubTokWs_of_not_contains h, string_mk_data]

/-- Witness for the amended C7 at a concrete input. -/
theorem c7_strip_once_of_no_more_tokens_witness :
    containsChars ("<@" ++ "U0BOT" ++ ">").data ("what is X?").data = false ∧
    (stripMention "U0BOT" ("<@" ++ "U0BOT" ++ "> " ++ "what is X?") = "what is X?" ∧
     stripMention "U0BOT" "what is X?" = "what is X?") :=
  ⟨by decide, c7_strip_once_of_no_more_tokens "U0BOT" "what is X?" (by decide)⟩

/-- C5 counterexample: `remove_react` is not guarded by try/finally
semantics.  With a mention event (a reaction was added), a channel config
carrying a team routing list, and a member-id lookup that raises, the
exception escapes orchestration, `process_message` ends with the exception
pending, and the clear (reaction removal) never runs — refuting the claim
that the clear runs on every exit path including exceptions raised by
orchestration. -/
theorem c5_clear_skipped_counterexample :
    process_message wC5 (Req.eventsApi evMention) ⟨true, 3, false, false, false⟩ =
      ([Effect.reactAdd, Effect.fetchUserIdsCall], some PyExn.slackApi) ∧
    Effect.reactRemove ∉
      (process_message wC5 (Req.eventsApi evMention)
        ⟨true, 3, false, false, false⟩).1 := by
  refine ⟨?_, ?_⟩ <;> decide

/-- C5 (amended): for every message-path event that reaches the signaling
stage, the clear operation runs on every exit path on which orchestration
returns normally — success and every Failed return — and, when an apology
is owed, the apology post also returns normally; an exception propagating
out of orchestration or out of the apology post skips the clear. -/
theorem c5_clear_on_normal_exits (w : World) (req : Req) (p : Params)
    (info : SlackMessageInfo) (failed : Bool)
    (hpre : prefilter_requests w req = true)
    (hbuild : build_request_details w req = Except.ok info)
    (hgate : ((w.getConfig (w.channelNameOf info.channel_to_respond)).isNone &&
      !p.respondEveryChannel) = false)
    (hack : w.ackExn = none)
    (hbot : info.is_bot_msg = false)
    (hhm : (handle_message w info
      (w.getConfig (w.channelNameOf info.channel_to_respond)) p.numRetries
      p.shouldRespondErrs p.disableDocsOnly p.reflexionDefault).2 =
      Except.ok failed)
    (hapo : failed = true → w.apologyExn = none) :
    Effect.reactRemove ∈ (process_message w req p).1 := by
  rw [process_message_reaches_tail hpre hbuild hgate]
  exact process_message_tail_clear hack hbot hhm hapo

/-- Witness for the amended C5 at a concrete input: a mention event on a
configured channel, an engine that answers, no collaborator raising. -/
theorem c5_clear_on_normal_exits_witness :
    Effect.reactRemove ∈
      (process_message wCfgEmpty (Req.eventsApi evMention)
        ⟨false, 1, false, false, false⟩).1 :=
  c5_clear_on_normal_exits wCfgEmpty (Req.eventsApi evMention)
    ⟨false, 1, false, false, false⟩
    { msg_content := "what is X?", channel_to_respond := "C1"
      msg_to_respond := some "11.22", sender := some "U1"
      bipass_filters := true, is_bot_msg := false }
    false (by decide) rfl (by decide) rfl rfl rfl (fun h => nomatch h)

/-- C9: for every message-path event (events-api or slash-command) whose
channel has no stored bot configuration, when the respond-every-channel
setting is disabled, `process_message` returns `([], none)`: dropped
silently with no working reaction or ephemeral acknowledgment, no engine
invocation, and no reply or apology. -/
theorem c9_unconfigured_channel_dropped (w : World) (req : Req) (p : Params)
    (hmsg : (∃ ev, req = Req.eventsApi ev) ∨
      ∃ a b c, req = Req.slashCommands a b c)
    (hcfg : ∀ ch, reqChannel req = some ch →
      w.getConfig (w.channelNameOf ch) = none)
    (hevery : p.respondEveryChannel = false) :
    process_message w req p = ([], none) := by
  rcases hmsg with ⟨ev, rfl⟩ | ⟨a, b, c, rfl⟩
  · cases hp : prefilter_requests w (Req.eventsApi ev) with
    | false => simp [process_message, hp]
    | true =>
      rcases hch : ev.channel with _ | ch
      · exfalso
        simp [prefilter_requests, prefilterEvents, hch] at hp
      · rcases htx : ev.text with _ | m
        · exfalso
          simp [prefilter_requests, prefilterEvents, hch, htx] at hp
        · have hcg : w.getConfig (w.channelNameOf ch) = none := hcfg ch hch
          simp [process_message, hp, build_request_details, htx, hch, hcg,
            hevery]
  · cases hp : prefilter_requests w (Req.slashCommands a b c) with
    | false => simp [process_message, hp]
    | true =>
      rcases ha : a with _ | ch
      · exfalso
        simp [prefilter_requests, strFalsy, ha] at hp
      · rcases hc : c with _ | uid
        · exfalso
          simp [prefilter_requests, strFalsy, hc] at hp
        · have hcg : w.getConfig (w.channelNameOf ch) = none := hcfg ch (by
            rw [reqChannel, ha])
          simp [process_message, hp, build_request_details, ha, hc, hcg,
            hevery]

/-- Witness for C9 at a concrete input: a mention event in a world where
no channel has a stored config. -/
theorem c9_unconfigured_channel_dropped_witness :
    process_message w0 (Req.eventsApi evMention)
      ⟨false, 1, false, false, false⟩ = ([], none) :=
  c9_unconfigured_channel_dropped w0 (Req.eventsApi evMention)
    ⟨false, 1, false, false, false⟩ (Or.inl ⟨evMention, rfl⟩)
    (fun _ _ => rfl) rfl

/-- C10: if orchestration produces a Succeeded-classified answer but
posting the rendered reply raises, `handle_message` returns the failure
value `Except.ok true`, and `process_message` therefore attempts the
generic apology reply even though the answer was successfully
generated. -/
theorem c10_post_failure_apologizes (w : World) (req : Req) (p : Params)
    (info : SlackMessageInfo) (c : SlackBotConfig) (t1 t2 : List Effect)
    (ans : QAResponse) (e : PyExn)
    (hpre : prefilter_requests w req = true)
    (hbuild : build_request_details w req = Except.ok info)
    (hcfg : w.getConfig (w.channelNameOf info.channel_to_respond) = some c)
    (hack : w.ackExn = none)
    (hqm : questionmarkSkip info.msg_content info.bipass_filters (some c) = false)
    (htag : (resolvedRespondTagOnly (some c) && !info.bipass_filters) = false)
    (hteam : teamStage w info (resolvedTeamList (some c)) = (t1, Except.ok ()))
    (hret : retryLoop w
      (resolvedReflexion p.reflexionDefault info.bipass_filters (some c)) 0
      p.numRetries = (t2, Except.ok ans))
    (heval : ans.eval_res_valid ≠ some false)
    (hdocs : ans.top_ranked_docs ≠ [])
    (hansr : (strFalsy ans.answer && p.disableDocsOnly) = false)
    (hpost : w.mainPostExn = some e) :
    (handle_message w info (some c) p.numRetries p.shouldRespondErrs
      p.disableDocsOnly p.reflexionDefault).2 = Except.ok true ∧
    Effect.apology ∈ (process_message w req p).1 := by
  have hcls : classifyAndRespond w ans (resolvedTeamList (some c))
      p.shouldRespondErrs p.disableDocsOnly = ([Effect.postAnswer], Except.ok true) := by
    unfold classifyAndRespond
    rw [if_neg heval, if_neg hdocs]
    simp only [hansr, Bool.false_eq_true, if_false, hpost]
  have hH : handle_message w info (some c) p.numRetries p.shouldRespondErrs
      p.disableDocsOnly p.reflexionDefault =
      (t1 ++ t2 ++ (classifyAndRespond w ans (resolvedTeamList (some c))
        p.shouldRespondErrs p.disableDocsOnly).1,
       (classifyAndRespond w ans (resolvedTeamList (some c))
        p.shouldRespondErrs p.disableDocsOnly).2) :=
    handle_message_retry_ok hqm htag hteam hret
  rw [hcls] at hH
  have h2 : (handle_message w info (some c) p.numRetries p.shouldRespondErrs
      p.disableDocsOnly p.reflexionDefault).2 = Except.ok true := by
    rw [hH]
  refine ⟨h2, ?_⟩
  rw [process_message_reaches_tail hpre hbuild (by rw [hcfg]; rfl)]
  rw [hcfg]
  exact process_message_tail_apology hack h2

/-- Witness for C10 at a concrete input: a mention event on a configured
channel whose main reply post raises. -/
theorem c10_post_failure_apologizes_witness :
    (handle_message wPostFail
      { msg_content := "what is X?", channel_to_respond := "C1"
        msg_to_respond := some "11.22", sender := some "U1"
        bipass_filters := true, is_bot_msg := false }
      (some cfgEmpty) 1 false false false).2 = Except.ok true ∧
    Effect.apology ∈
      (process_message wPostFail (Req.eventsApi evMention)
        ⟨false, 1, false, false, false⟩).1 :=
  c10_post_failure_apologizes wPostFail (Req.eventsApi evMention)
    ⟨false, 1, false, false, false⟩
    { msg_content := "what is X?", channel_to_respond := "C1"
      msg_to_respond := some "11.22", sender := some "U1"
      bipass_filters := true, is_bot_msg := false }
    cfgEmpty [] [Effect.engineCall 0 false] ansGood PyExn.slackApi
    (by decide) rfl rfl rfl (by decide) (by decide) rfl rfl (by decide)
    (by decide) (by decide) rfl

end DanswerSlack
